import Mathlib

/-
Verification development for the HR assistant repository.

The repository is a Streamlit application with three modes: resume
screening (src/Agents/resume_screening_app.py), policy Q&A, and
onboarding (src/main.py, src/Agents/onboarding_agent.py), guarded by
src/Agents/guardrails.py.  The definitions below are shallow embeddings
of the Python functions; external effects (LLM provider calls, SMTP,
file extraction) are supplied as explicit oracle values so that the
repository control flow itself stays executable and provable.
-/

/-! ## Python string primitives -/

/-- Python slicing `s[:n]` on a string, by code points. -/
def pyslice (s : String) (n : Nat) : String := ⟨s.data.take n⟩

/-- Python `s.upper()`, modelled per character (the strings compared in
this repository are ASCII). -/
def pyUpper (s : String) : String := ⟨s.data.map Char.toUpper⟩

/-- Python `s.strip()`: remove leading and trailing whitespace. -/
def pystrip (s : String) : String :=
  ⟨((s.data.dropWhile Char.isWhitespace).reverse.dropWhile Char.isWhitespace).reverse⟩

/-! ## Data model of the screening pipeline

A `Verdict` is the parsed JSON object produced per resume, with the
`filename` key attached by the pipeline (`parsed["filename"] = file.name`).
`VerdictBody` is the same object before the pipeline attaches the
filename.  Scores are modelled as rationals. -/

structure VerdictBody where
  weighted_average : ℚ
  verdict : String
  reasoning : String
  deriving DecidableEq

structure Verdict where
  filename : String
  weighted_average : ℚ
  verdict : String
  reasoning : String
  deriving DecidableEq

/-- Attaching the filename to a parsed body: `parsed["filename"] = file.name`. -/
def mkVerdict (fn : String) (b : VerdictBody) : Verdict :=
  ⟨fn, b.weighted_average, b.verdict, b.reasoning⟩

/-- One uploaded file as the pipeline sees it.  `text1`/`text2` are the
texts extracted in pass 1 and pass 2 (the code re-runs extraction in the
retry pass, so they may differ); `eval1`/`eval2` are the JSON-parse
outcomes of the evaluator response in each pass: `some b` when
`json.loads` succeeds with object `b`, `none` when it raises
`JSONDecodeError`. -/
structure ScreeningItem where
  filename : String
  text1 : String
  eval1 : Option VerdictBody
  text2 : String
  eval2 : Option VerdictBody
  deriving DecidableEq

/-! ## The two-pass pipeline (resume_screening_app.py, lines 132-178) -/

/-- Body of the pass-1 loop: on readable text and parse success append a
verdict to `results` (`acc.1`); otherwise append the file to
`failed_files` (`acc.2`). -/
def pass1Step (acc : List Verdict × List ScreeningItem) (it : ScreeningItem) :
    List Verdict × List ScreeningItem :=
  if pystrip it.text1 ≠ "" then
    match it.eval1 with
    | some b => (acc.1 ++ [mkVerdict it.filename b], acc.2)
    | none => (acc.1, acc.2 ++ [it])
  else
    (acc.1, acc.2 ++ [it])

/-- Body of the pass-2 (retry) loop: parse success appends the parsed
verdict; repeated parse failure appends the synthesized two-attempts FAIL
verdict; unreadable text appends the synthesized unreadable FAIL verdict. -/
def pass2Step (acc : List Verdict) (it : ScreeningItem) : List Verdict :=
  if pystrip it.text2 ≠ "" then
    match it.eval2 with
    | some b => acc ++ [mkVerdict it.filename b]
    | none =>
        acc ++ [⟨it.filename, 0, "FAIL", "Resume could not be parsed after two attempts."⟩]
  else
    acc ++ [⟨it.filename, 0, "FAIL", "Unreadable or empty resume text (after retry)."⟩]

/-- The full two-pass pipeline: pass 1 over all items builds `results`
and `failed_files`; pass 2 then appends one resolution per failed file. -/
def screen (items : List ScreeningItem) : List Verdict :=
  let p := items.foldl pass1Step ([], [])
  p.2.foldl pass2Step p.1

/-- Per-item pass-1 outcome: the verdict recorded in pass 1, when any. -/
def pass1Verdict (it : ScreeningItem) : Option Verdict :=
  if pystrip it.text1 ≠ "" then it.eval1.map (mkVerdict it.filename) else none

/-- Whether the item lands in `failed_files` during pass 1. -/
def pass1Failed (it : ScreeningItem) : Bool := (pass1Verdict it).isNone

/-- Per-item pass-2 resolution (always produces exactly one verdict). -/
def retryResolve (it : ScreeningItem) : Verdict :=
  if pystrip it.text2 ≠ "" then
    match it.eval2 with
    | some b => mkVerdict it.filename b
    | none => ⟨it.filename, 0, "FAIL", "Resume could not be parsed after two attempts."⟩
  else
    ⟨it.filename, 0, "FAIL", "Unreadable or empty resume text (after retry)."⟩

theorem pass1_foldl_eq (items : List ScreeningItem) (acc : List Verdict × List ScreeningItem) :
    items.foldl pass1Step acc =
      (acc.1 ++ items.filterMap pass1Verdict, acc.2 ++ items.filter pass1Failed) := by
  induction items generalizing acc with
  | nil => simp
  | cons it rest ih =>
    rw [List.foldl_cons, ih]
    rcases Decidable.em (pystrip it.text1 = "") with h | h
    · simp [pass1Step, pass1Verdict, pass1Failed, h]
    · cases he : it.eval1 <;>
        simp [pass1Step, pass1Verdict, pass1Failed, h, he]

theorem pass2Step_eq (acc : List Verdict) (it : ScreeningItem) :
    pass2Step acc it = acc ++ [retryResolve it] := by
  unfold pass2Step retryResolve
  rcases Decidable.em (pystrip it.text2 = "") with h | h
  · simp [h]
  · cases he : it.eval2 <;> simp [h, he]

theorem pass2_foldl_eq (items : List ScreeningItem) (acc : List Verdict) :
    items.foldl pass2Step acc = acc ++ items.map retryResolve := by
  induction items generalizing acc with
  | nil => simp
  | cons it rest ih => rw [List.foldl_cons, pass2Step_eq, ih]; simp

/-- Characterization of the pipeline: pass-1 successes in input order,
then the pass-2 resolutions of the failed items in input order. -/
theorem screen_eq (items : List ScreeningItem) :
    screen items =
      items.filterMap pass1Verdict ++ (items.filter pass1Failed).map retryResolve := by
  unfold screen
  rw [pass1_foldl_eq, pass2_foldl_eq]
  simp

theorem pass1Verdict_filename {it : ScreeningItem} {v : Verdict}
    (h : pass1Verdict it = some v) : v.filename = it.filename := by
  unfold pass1Verdict at h
  rcases Decidable.em (pystrip it.text1 = "") with h1 | h1
  · simp [h1] at h
  · cases he : it.eval1 <;> simp [h1, he] at h
    rw [← h]
    rfl

theorem retryResolve_filename (it : ScreeningItem) :
    (retryResolve it).filename = it.filename := by
  unfold retryResolve
  rcases Decidable.em (pystrip it.text2 = "") with h | h
  · simp [h]
  · cases he : it.eval2 <;> simp [h, he, mkVerdict]

/-- The filenames of the produced verdicts are a permutation of the
filenames of the input items. -/
theorem screen_filenames_perm (items : List ScreeningItem) :
    List.Perm ((screen items).map Verdict.filename) (items.map ScreeningItem.filename) := by
  rw [screen_eq]
  induction items with
  | nil => simp
  | cons it rest ih =>
    cases hpv : pass1Verdict it with
    | some v =>
        have hf : pass1Failed it = false := by simp [pass1Failed, hpv]
        simpa [List.filterMap_cons, hpv, List.filter_cons, hf,
          pass1Verdict_filename hpv] using ih.cons it.filename
    | none =>
        have hf : pass1Failed it = true := by simp [pass1Failed, hpv]
        rw [List.map_append] at ih
        have hmid :
            List.Perm
              ((rest.filterMap pass1Verdict).map Verdict.filename ++
                it.filename :: ((rest.filter pass1Failed).map retryResolve).map Verdict.filename)
              (it.filename :: ((rest.filterMap pass1Verdict).map Verdict.filename ++
                ((rest.filter pass1Failed).map retryResolve).map Verdict.filename)) :=
          List.perm_middle

        simpa [List.filterMap_cons, hpv, List.filter_cons, hf,
          retryResolve_filename] using hmid.trans (ih.cons it.filename)

/-! ## Pipeline claims -/

/-- C6: the ResultSet lists verdicts in the order items reach a terminal
state — all pass-1 successes first, in input order, followed by the
pass-2 resolutions of the retried items, the retry set preserving the
input order of the failed items. -/
theorem screen_ordering (items : List ScreeningItem) :
    screen items =
      items.filterMap pass1Verdict ++ (items.filter pass1Failed).map retryResolve :=
  screen_eq items

/-- C1: for an input batch with pairwise distinct filenames, the
pipeline output contains exactly one verdict per input filename — each
item yields a verdict in pass 1 or is retried and yields exactly one
verdict in pass 2. -/
theorem screen_one_verdict_per_filename (items : List ScreeningItem)
    (hnd : (items.map ScreeningItem.filename).Nodup) (f : String)
    (hf : f ∈ items.map ScreeningItem.filename) :
    ((screen items).map Verdict.filename).count f = 1 := by
  rw [(screen_filenames_perm items).count_eq]
  exact List.count_eq_one_of_mem hnd hf

def itemA : ScreeningItem := ⟨"a.pdf", "alice resume text", some ⟨7, "PASS", "good"⟩, "", none⟩

def itemB : ScreeningItem := ⟨"b.pdf", "", none, "", none⟩

theorem screen_one_verdict_per_filename_witness :
    ([itemA, itemB].map ScreeningItem.filename).Nodup ∧
      "b.pdf" ∈ [itemA, itemB].map ScreeningItem.filename ∧
      ((screen [itemA, itemB]).map Verdict.filename).count "b.pdf" = 1 :=
  ⟨by decide, by decide,
    screen_one_verdict_per_filename [itemA, itemB] (by decide) "b.pdf" (by decide)⟩

/-- C3: an item whose text is non-empty in both passes but whose
evaluator response fails to parse in both passes gets the terminal FAIL
verdict with weighted_average 0 whose reasoning states that two
attempts were made. -/
theorem screen_double_parse_failure (items : List ScreeningItem) (it : ScreeningItem)
    (hmem : it ∈ items) (h1 : pystrip it.text1 ≠ "") (he1 : it.eval1 = none)
    (h2 : pystrip it.text2 ≠ "") (he2 : it.eval2 = none) :
    (⟨it.filename, 0, "FAIL", "Resume could not be parsed after two attempts."⟩ : Verdict)
      ∈ screen items := by
  rw [screen_eq]
  apply List.mem_append_right
  have hfail : pass1Failed it = true := by simp [pass1Failed, pass1Verdict, h1, he1]
  have hres : retryResolve it =
      ⟨it.filename, 0, "FAIL", "Resume could not be parsed after two attempts."⟩ := by
    simp [retryResolve, h2, he2]
  exact hres ▸ List.mem_map_of_mem retryResolve (List.mem_filter.mpr ⟨hmem, hfail⟩)

def itemC : ScreeningItem := ⟨"c.pdf", "carol resume text", none, "carol resume text", none⟩

theorem screen_double_parse_failure_witness :
    (⟨"c.pdf", 0, "FAIL", "Resume could not be parsed after two attempts."⟩ : Verdict)
      ∈ screen [itemC] :=
  screen_double_parse_failure [itemC] itemC (by decide) (by decide) rfl (by decide) rfl

def itemD : ScreeningItem := ⟨"d.pdf", "", none, "", none⟩

/-- C4 counterexample: for an item that is empty in both passes the
terminal verdict's reasoning is "Unreadable or empty resume text (after
retry)." — not the claimed string "Unreadable or empty resume text". -/
theorem screen_unreadable_reasoning_counterexample :
    screen [itemD] =
      [⟨"d.pdf", 0, "FAIL", "Unreadable or empty resume text (after retry)."⟩] ∧
      ((screen [itemD]).all fun v => v.reasoning != "Unreadable or empty resume text") = true := by
  constructor <;> decide

/-- C4 (amended): an item whose extracted text is empty or whitespace in
both passes is placed in the retry set in pass 1 (no verdict recorded
then) and gets the terminal verdict with weighted_average 0, verdict
FAIL, and reasoning "Unreadable or empty resume text (after retry)." in
pass 2. -/
theorem screen_unreadable_both_passes (items : List ScreeningItem) (it : ScreeningItem)
    (hmem : it ∈ items) (h1 : pystrip it.text1 = "") (h2 : pystrip it.text2 = "") :
    (⟨it.filename, 0, "FAIL", "Unreadable or empty resume text (after retry)."⟩ : Verdict)
        ∈ screen items ∧
      it ∈ (items.foldl pass1Step ([], [])).2 := by
  have hfail : pass1Failed it = true := by simp [pass1Failed, pass1Verdict, h1]
  constructor
  · rw [screen_eq]
    apply List.mem_append_right
    have hres : retryResolve it =
        ⟨it.filename, 0, "FAIL", "Unreadable or empty resume text (after retry)."⟩ := by
      simp [retryResolve, h2]
    exact hres ▸ List.mem_map_of_mem retryResolve (List.mem_filter.mpr ⟨hmem, hfail⟩)
  · rw [pass1_foldl_eq]
    simpa using List.mem_filter.mpr ⟨hmem, hfail⟩

theorem screen_unreadable_both_passes_witness :
    (⟨"d.pdf", 0, "FAIL", "Unreadable or empty resume text (after retry)."⟩ : Verdict)
        ∈ screen [itemD] ∧
      itemD ∈ ([itemD].foldl pass1Step ([], [])).2 :=
  screen_unreadable_both_passes [itemD] itemD (by decide) (by decide) (by decide)

/-! ## Candidate Evaluator (resume_screening_app.py, analyze_resume_with_llm)

The OpenAI client is modelled as an oracle over the outgoing message
list.  `CallOutcome.ok` models `client.responses.create` returning with
`output_text`, `typeError` models it raising `TypeError` (which the code
answers with a fallback call to `client.chat.completions.create`), and
`err` models it raising any other exception (whose message the code
embeds in a synthesized FAIL payload). -/

inductive CallOutcome where
  | ok (output_text : String)
  | typeError
  | err (msg : String)

structure ScreenLLM where
  responses : List (String × String) → CallOutcome
  chat : List (String × String) → Except String String

/-- The f-string prompt of `analyze_resume_with_llm`. -/
def screenPrompt (role : String) : String :=
  "\nYou are an expert HR recruiter assistant.\nCandidate is applying for " ++ role ++
    ".\nBelow is their resume text.\n\n1. Extract: Age, Education, Skills, Projects, Certifications.\n2. Score each (0–10) for relevance to " ++
    role ++
    ".\n3. Compute weighted average: Skills40 + Projects30 + Education20 + Certs10.\n4. Return JSON only:\n\x7b\"weighted_average\": float, \"verdict\": \"PASS\"/\"FAIL\", \"reasoning\": \"string\"\x7d\n"

/-- The user message content: `prompt + "\nResume:\n" + resume_text[:8000]`. -/
def screenUserContent (role resume_text : String) : String :=
  screenPrompt role ++ "\nResume:\n" ++ pyslice resume_text 8000

/-- The message list sent to the provider (both the primary and the
fallback call use the same system instruction and user content). -/
def screenMessages (role resume_text : String) : List (String × String) :=
  [("system", "Return valid JSON only."),
   ("user", screenUserContent role resume_text)]

/-- Output of `json.dumps(\x7b"weighted_average": 0, "verdict": "FAIL",
"reasoning": f"Error: \x7be\x7d"\x7d)`. -/
def failVerdictJson (e : String) : String :=
  "\x7b\"weighted_average\": 0, \"verdict\": \"FAIL\", \"reasoning\": \"Error: " ++ e ++ "\"\x7d"

/-- The evaluator.  The Python body is a single `try` with two handler
clauses: `except TypeError` issues the fallback chat call, and `except
Exception` synthesizes the FAIL payload.  An exception raised inside the
`except TypeError` handler is not caught by the sibling `except
Exception` clause, so a failing fallback call propagates (`.error`). -/
def analyze_resume_with_llm (client : ScreenLLM) (role resume_text : String) :
    Except String String :=
  match client.responses (screenMessages role resume_text) with
  | .ok s => .ok s
  | .typeError =>
      match client.chat (screenMessages role resume_text) with
      | .ok s => .ok s
      | .error e => .error e
  | .err e => .ok (failVerdictJson e)

theorem pyslice_pyslice (s : String) (n : Nat) : pyslice (pyslice s n) n = pyslice s n := by
  simp [pyslice, List.take_take]

/-- C5: the evaluator submits at most the first 8000 characters of the
resume text; text beyond 8000 characters never affects the provider
request nor the evaluator's result. -/
theorem analyze_truncates_resume (client : ScreenLLM) (role resume_text : String) :
    screenUserContent role resume_text = screenUserContent role (pyslice resume_text 8000) ∧
      analyze_resume_with_llm client role resume_text =
        analyze_resume_with_llm client role (pyslice resume_text 8000) := by
  have hc : screenUserContent role resume_text =
      screenUserContent role (pyslice resume_text 8000) := by
    unfold screenUserContent
    rw [pyslice_pyslice]
  refine ⟨hc, ?_⟩
  unfold analyze_resume_with_llm screenMessages
  rw [hc]

/-- The provider client whose primary call raises `TypeError` and whose
fallback chat call raises a connection error. -/
def errClient : ScreenLLM :=
  ⟨fun _ => .typeError, fun _ => .error "connection failed"⟩

/-- C2 counterexample: with `errClient` the evaluator propagates the
fallback call's exception instead of returning a synthesized FAIL JSON
string, so the evaluator can raise. -/
theorem analyze_raises_counterexample :
    analyze_resume_with_llm errClient "Engineer" "resume text" = .error "connection failed" :=
  rfl

/-- C2 (amended): if the primary provider call raises a non-TypeError
error, the evaluator returns the synthesized FAIL JSON with
weighted_average 0 and reasoning embedding the error; but if the primary
call raises TypeError and the fallback chat call then raises, that
exception propagates out of the evaluator. -/
theorem analyze_error_handling (client : ScreenLLM) (role resume_text : String) :
    (∀ e, client.responses (screenMessages role resume_text) = .err e →
        analyze_resume_with_llm client role resume_text = .ok (failVerdictJson e)) ∧
      (∀ e, client.responses (screenMessages role resume_text) = .typeError →
        client.chat (screenMessages role resume_text) = .error e →
        analyze_resume_with_llm client role resume_text = .error e) := by
  constructor
  · intro e h
    unfold analyze_resume_with_llm
    rw [h]
  · intro e h hc
    unfold analyze_resume_with_llm
    rw [h, hc]

/-- A provider client whose primary call raises a non-TypeError error. -/
def downClient : ScreenLLM :=
  ⟨fun _ => .err "rate limit", fun _ => .error "unused"⟩

theorem analyze_error_handling_witness :
    analyze_resume_with_llm downClient "Engineer" "resume text" =
      .ok (failVerdictJson "rate limit") :=
  (analyze_error_handling downClient "Engineer" "resume text").1 "rate limit" rfl

/-! ## Result exporter (resume_screening_app.py, lines 188-193)

`df.sort_values(by="weighted_average", ascending=False)` sorts the
result rows so that the weighted averages are non-increasing; the sort
is modelled as a comparison sort under the descending order on
`weighted_average`. -/

def exportSortRel (a b : Verdict) : Prop :=
  b.weighted_average ≤ a.weighted_average

instance : DecidableRel exportSortRel :=
  fun a b => inferInstanceAs (Decidable (b.weighted_average ≤ a.weighted_average))

instance : IsTotal Verdict exportSortRel :=
  ⟨fun a b => le_total b.weighted_average a.weighted_average⟩

instance : IsTrans Verdict exportSortRel :=
  ⟨fun _ _ _ hab hbc => le_trans hbc hab⟩

/-- The exporter's sort: descending by `weighted_average`. -/
def exportSort (rs : List Verdict) : List Verdict :=
  rs.insertionSort exportSortRel

def sampleResults : List Verdict :=
  [⟨"r1.pdf", 3.2, "FAIL", "low"⟩, ⟨"r2.pdf", 9.1, "PASS", "high"⟩, ⟨"r3.pdf", 6.0, "PASS", "mid"⟩]

/-- C7: the exporter sorts the ResultSet by weighted_average descending:
the displayed weighted averages are non-increasing and the rows are a
permutation of the input; on averages [3.2, 9.1, 6.0] the displayed
order is [9.1, 6.0, 3.2]. -/
theorem exportSort_spec :
    (∀ rs : List Verdict,
        ((exportSort rs).map Verdict.weighted_average).Sorted (· ≥ ·) ∧
          List.Perm (exportSort rs) rs) ∧
      (exportSort sampleResults).map Verdict.weighted_average = [(9.1 : ℚ), 6.0, 3.2] := by
  constructor
  · intro rs
    refine ⟨?_, List.perm_insertionSort _ _⟩
    have h := List.sorted_insertionSort exportSortRel rs
    rw [List.Sorted, List.pairwise_map]
    exact h.imp fun hab => hab
  · norm_num [exportSort, sampleResults, List.insertionSort, List.orderedInsert, exportSortRel]

/-! ## Bulk onboarding upload (main.py, lines 109-126)

An uploaded results file is modelled as a header (column names) plus
rows of cells keyed by column name.  `pd.DataFrame` cells converted by
`astype(str)` are strings; a missing value renders as "nan". -/

structure UploadedTable where
  columns : List String
  rows : List (List (String × String))

/-- Cell of a row under a column, after `astype(str)` conversion. -/
def cellStr (row : List (String × String)) (c : String) : String :=
  match row.lookup c with
  | some v => v
  | none => "nan"

/-- The row predicate `df["verdict"].astype(str).str.upper() == "PASS"`. -/
def rowPassed (row : List (String × String)) : Bool :=
  pyUpper (cellStr row "verdict") == "PASS"

/-- The bulk-upload selection: reject a file without a `verdict` column
(`st.error` + `st.stop()`), otherwise keep the rows whose verdict
uppercases to "PASS". -/
def selectPassed (t : UploadedTable) :
    Except String (List (List (String × String))) :=
  if "verdict" ∈ t.columns then .ok (t.rows.filter rowPassed)
  else .error "❌ The uploaded file must include a \x27verdict\x27 column."

/-- C8: in bulk onboarding mode exactly the rows whose verdict equals
"PASS" case-insensitively (after string conversion) are selected; a file
lacking a verdict column is rejected with an error and no row is
selected. -/
theorem selectPassed_spec (t : UploadedTable) :
    ("verdict" ∉ t.columns →
        selectPassed t = .error "❌ The uploaded file must include a \x27verdict\x27 column.") ∧
      ∀ r, (∃ sel, selectPassed t = .ok sel ∧ r ∈ sel) ↔
        ("verdict" ∈ t.columns ∧ r ∈ t.rows ∧ pyUpper (cellStr r "verdict") = "PASS") := by
  by_cases h : "verdict" ∈ t.columns <;>
    simp [selectPassed, h, List.mem_filter, rowPassed]

def sampleTable : UploadedTable :=
  ⟨["filename", "verdict"],
   [[("filename", "a.pdf"), ("verdict", "pass")],
    [("filename", "b.pdf"), ("verdict", "FAIL")]]⟩

def headerlessTable : UploadedTable :=
  ⟨["filename", "score"], [[("filename", "a.pdf"), ("score", "9")]]⟩

theorem selectPassed_spec_witness :
    (∃ sel, selectPassed sampleTable = .ok sel ∧
        [("filename", "a.pdf"), ("verdict", "pass")] ∈ sel) ∧
      selectPassed headerlessTable =
        .error "❌ The uploaded file must include a \x27verdict\x27 column." :=
  ⟨((selectPassed_spec sampleTable).2 [("filename", "a.pdf"), ("verdict", "pass")]).mpr
      ⟨by decide, by decide, by decide⟩,
    (selectPassed_spec headerlessTable).1 (by decide)⟩

/-! ## Guardrails and query routing (guardrails.py; main.py, lines 56-78) -/

/-- Python `s.lower()`, modelled per character. -/
def pyLower (s : String) : String := ⟨s.data.map Char.toLower⟩

/-- Python substring containment `needle in hay`. -/
def strContains (hay needle : String) : Bool :=
  hay.data.tails.any fun suf => needle.data.isPrefixOf suf

def bannedWords : List String :=
  ["delete", "drop", "sudo", "hack", "rm -rf", "password", "api_key"]

/-- `sanitize_input`: raise ValueError (`.error`) when any banned word
occurs case-insensitively in the text, else return the stripped text. -/
def sanitize_input (text : String) : Except String String :=
  if bannedWords.any (fun word => strContains (pyLower text) (pyLower word)) then
    .error "⚠️ Unsafe or disallowed input detected."
  else
    .ok (pystrip text)

inductive Mode where
  | resume
  | policy
  | onboarding
  | unknown
  deriving DecidableEq

def resumeKeywords : List String := ["resume", "screen", "candidate", "cv"]

def policyKeywords : List String := ["policy", "leave", "vacation", "rules", "payroll", "salary"]

def onboardingKeywords : List String := ["onboard", "joining", "orientation", "welcome"]

/-- The keyword router of main.py, applied to the lowercased sanitized
query. -/
def classifyQuery (q : String) : Mode :=
  if resumeKeywords.any (fun k => strContains q k) then .resume
  else if policyKeywords.any (fun k => strContains q k) then .policy
  else if onboardingKeywords.any (fun k => strContains q k) then .onboarding
  else .unknown

inductive SubmitOutcome where
  | emptyWarning
  | rejected (msg : String)
  | routed (m : Mode)
  deriving DecidableEq

/-- The Submit button handler: warn on a blank query, reject on a
guardrail ValueError, otherwise route the lowercased sanitized query. -/
def handleSubmit (query : String) : SubmitOutcome :=
  if pystrip query = "" then .emptyWarning
  else
    match sanitize_input query with
    | .error e => .rejected e
    | .ok s => .routed (classifyQuery (pyLower s))

theorem sanitize_input_ok {text s : String} (h : sanitize_input text = .ok s) :
    s = pystrip text := by
  unfold sanitize_input at h
  rcases Decidable.em
      ((bannedWords.any fun word => strContains (pyLower text) (pyLower word)) = true) with
    hb | hb <;> simp [hb] at h
  exact h.symm

/-- C9: `sanitize_input` raises exactly when the text contains one of
the banned substrings case-insensitively, otherwise returns the stripped
input; and the router only ever runs on the sanitized (stripped) result. -/
theorem sanitize_input_spec :
    (∀ text : String,
        ((∃ w ∈ bannedWords, strContains (pyLower text) (pyLower w) = true) ↔
            sanitize_input text = .error "⚠️ Unsafe or disallowed input detected.") ∧
          ((¬ ∃ w ∈ bannedWords, strContains (pyLower text) (pyLower w) = true) →
            sanitize_input text = .ok (pystrip text))) ∧
      ∀ q m, handleSubmit q = .routed m →
        sanitize_input q = .ok (pystrip q) ∧ m = classifyQuery (pyLower (pystrip q)) := by
  constructor
  · intro text
    rcases Decidable.em
        ((bannedWords.any fun word => strContains (pyLower text) (pyLower word)) = true) with
      hb | hb
    · constructor
      · simp [sanitize_input, hb, ← List.any_eq_true]
      · intro hne
        exact absurd (List.any_eq_true.mp hb) hne
    · constructor
      · simp [sanitize_input, hb, ← List.any_eq_true]
      · intro _
        simp [sanitize_input, hb]
  · intro q m h
    unfold handleSubmit at h
    rcases Decidable.em (pystrip q = "") with hq | hq
    · simp [hq] at h
    · simp only [hq, if_false] at h
      cases hs : sanitize_input q with
      | error e => rw [hs] at h; exact absurd h (by simp)
      | ok s =>
          rw [hs] at h
          have hsq : s = pystrip q := sanitize_input_ok hs
          simp only [SubmitOutcome.routed.injEq] at h
          exact ⟨by rw [hsq], by rw [← h, hsq]⟩


theorem sanitize_input_spec_witness :
    sanitize_input "  hello there  " = .ok "hello there" ∧
      sanitize_input "please DROP the table" = .error "⚠️ Unsafe or disallowed input detected." ∧
      (sanitize_input "screen resumes" = .ok "screen resumes" ∧
        Mode.resume = classifyQuery (pyLower (pystrip "screen resumes"))) :=
  ⟨(sanitize_input_spec.1 "  hello there  ").2 (by decide),
    ((sanitize_input_spec.1 "please DROP the table").1).mp ⟨"drop", by decide, by decide⟩,
    sanitize_input_spec.2 "screen resumes" Mode.resume (by decide)⟩

/-! ## Onboarding agent (onboarding_agent.py)

The OpenAI client of the module is `Option PlanLLM` (None when no API
key is configured); SMTP transport is the oracle `send_email_smtp`
(the repository function of that name catches its own exceptions and
returns a status record, so it is total). -/

def braceOpen : Char := Char.ofNat 123

def braceClose : Char := Char.ofNat 125

/-- Python single-character `s.replace(a, b)`. -/
def pyReplaceChar (a b : Char) (s : String) : String :=
  ⟨s.data.map fun c => if c = a then b else c⟩

/-- Python `s.split(sep)[0]` for a one-character separator: the prefix
before the first occurrence of the separator. -/
def takeUntilChar (c : Char) (l : List Char) : List Char :=
  l.takeWhile fun d => d ≠ c

/-- Python `s.title()`: the first cased character of each run of cased
characters is uppercased, the rest lowercased. -/
def pyTitleGo : Bool → List Char → List Char
  | _, [] => []
  | prevCased, c :: rest =>
      if c.isAlpha then
        (if prevCased then c.toLower else c.toUpper) :: pyTitleGo true rest
      else
        c :: pyTitleGo false rest

def pyTitle (s : String) : String := ⟨pyTitleGo false s.data⟩

/-- Python truthiness of an optional string: `None` and `""` are falsy. -/
def pyTruthy (o : Option String) : Bool :=
  match o with
  | some s => !(s == "")
  | none => false

/-- Python `a or b` where `a` is an optional string and `b` a string. -/
def pyOrStr (a : Option String) (b : String) : String :=
  match a with
  | some s => if s == "" then b else s
  | none => b

/-- Python `a or b` where both operands are optional strings. -/
def pyOrOpt (a b : Option String) : Option String :=
  match a with
  | some s => if s == "" then b else some s
  | none => b

/-- Character classes of the email regex
`[a-zA-Z0-9.\-_+]+@[a-zA-Z0-9\-_]+\.[a-zA-Z0-9.\-_]+`. -/
def emailChar1 (c : Char) : Bool := c.isAlphanum || c == '.' || c == '-' || c == '_' || c == '+'

def emailChar2 (c : Char) : Bool := c.isAlphanum || c == '-' || c == '_'

def emailChar3 (c : Char) : Bool := c.isAlphanum || c == '.' || c == '-' || c == '_'

/-- Match of the email regex anchored at the start of `l`.  The classes
before `@` and before the literal dot exclude the character that follows
them, so greedy matching needs no backtracking. -/
def matchEmailAt (l : List Char) : Option (List Char) :=
  let p1 := l.takeWhile emailChar1
  if p1.isEmpty then none
  else
    match l.dropWhile emailChar1 with
    | '@' :: r2 =>
        let p2 := r2.takeWhile emailChar2
        if p2.isEmpty then none
        else
          match r2.dropWhile emailChar2 with
          | '.' :: r4 =>
              let p3 := r4.takeWhile emailChar3
              if p3.isEmpty then none
              else some (p1 ++ '@' :: (p2 ++ '.' :: p3))
          | _ => none
    | _ => none

/-- `re.search`: leftmost match. -/
def searchEmail : List Char → Option (List Char)
  | [] => none
  | c :: rest =>
      match matchEmailAt (c :: rest) with
      | some m => some m
      | none => searchEmail rest

/-- `extract_email_from_text`: first email found in the text, or None. -/
def extract_email_from_text (text : String) : Option String :=
  if text == "" then none
  else (searchEmail text.data).map fun cs => (⟨cs⟩ : String)

/-- `guess_email_from_filename`: username from the filename before the
first dot, restricted to `[a-zA-Z0-9\-_]`, lowercased, defaulting to
"candidate". -/
def guess_email_from_filename (filename : String) (domain : String := "example.com") : String :=
  let u0 : String := ⟨takeUntilChar '.' (takeUntilChar '@' filename.data)⟩
  let u1 := pyLower ⟨u0.data.filter fun c => c.isAlphanum || c == '-' || c == '_'⟩
  let u2 := if u1 == "" then "candidate" else u1
  u2 ++ "@" ++ domain

/-- Python `template.format(key=value, ...)` restricted to named fields:
doubled braces are literals, an unknown key raises KeyError, an
unmatched brace raises ValueError.  The fuel is the remaining length
plus one, so it never runs out. -/
def pyFormatGo (vals : List (String × String)) : Nat → List Char → Except String (List Char)
  | 0, _ => .error "format recursion limit"
  | _, [] => .ok []
  | fuel + 1, c :: rest =>
      if c = braceOpen then
        match rest with
        | [] => .error "Single \x27\x7b\x27 encountered in format string"
        | c2 :: rest2 =>
            if c2 = braceOpen then
              match pyFormatGo vals fuel rest2 with
              | .ok tail => .ok (braceOpen :: tail)
              | .error e => .error e
            else
              let key := rest.takeWhile fun d => d ≠ braceClose
              match rest.dropWhile fun d => d ≠ braceClose with
              | [] => .error "Single \x27\x7b\x27 encountered in format string"
              | _ :: rest3 =>
                  match vals.lookup (⟨key⟩ : String) with
                  | none => .error ("KeyError: " ++ (⟨key⟩ : String))
                  | some v =>
                      match pyFormatGo vals fuel rest3 with
                      | .ok tail => .ok (v.data ++ tail)
                      | .error e => .error e
      else if c = braceClose then
        match rest with
        | c2 :: rest2 =>
            if c2 = braceClose then
              match pyFormatGo vals fuel rest2 with
              | .ok tail => .ok (braceClose :: tail)
              | .error e => .error e
            else .error "Single \x27\x7d\x27 encountered in format string"
        | [] => .error "Single \x27\x7d\x27 encountered in format string"
      else
        match pyFormatGo vals fuel rest with
        | .ok tail => .ok (c :: tail)
        | .error e => .error e

def pyFormat (template : String) (vals : List (String × String)) : Except String String :=
  match pyFormatGo vals (template.data.length + 1) template.data with
  | .ok cs => .ok ⟨cs⟩
  | .error e => .error e

/-- Oracle for the plan-generation OpenAI calls (string prompt in,
`CallOutcome` out, same three-way shape as for the evaluator). -/
structure PlanLLM where
  responses : String → CallOutcome
  chat : String → Except String String

def planHeader (name role : String) : String :=
  "Onboarding Plan for " ++ name ++ " — " ++ role ++ "\n"

def planTemplateLines : String :=
  String.intercalate "\n"
    ["Welcome! (automatically generated template because OpenAI not configured)",
     "",
     "Day 1: Welcome, paperwork, access setup, team intro.",
     "Day 2: Product overview, onboarding docs, basic training.",
     "Day 3: Tools & environment setup, pairing with buddy.",
     "Day 4: Role-specific training sessions.",
     "Day 5: Meet cross-functional team, small task assigned.",
     "Day 6: Feedback session, Q&A with manager.",
     "Day 7: End-of-week review, next steps, goals."]

def planFallback (e : String) : String :=
  "(Could not generate plan via OpenAI: " ++ e ++ ")\n\n" ++
    "Day 1: Welcome, paperwork, access setup, team intro.\nDay 2: Product overview, onboarding docs, basic training.\nDay 3: Tools & environment setup, pairing with buddy.\nDay 4: Role-specific training sessions.\nDay 5: Meet cross-functional team, small task assigned.\nDay 6: Feedback session, Q&A with manager.\nDay 7: End-of-week review, next steps, goals."

def planPrompt (name role : String) (start_date : Option String) : String :=
  "\nYou are an HR Onboarding Assistant. Create a concise 7-day onboarding plan for a new hire.\n\nName: " ++
    name ++ "\nRole: " ++ role ++ "\nStart date (if known): " ++
    pyOrStr start_date "Not provided" ++
    "\n\nInstructions:\n- Provide a short welcome note.\n- Provide Day 1 through Day 7 bullets with times or time windows where appropriate.\n- Include tasks, meetings, documents to read, and one manager/buddy check-in per day.\n- Keep it actionable and concise (use bullets).\nReturn plain text only.\n"

/-- `generate_onboarding_plan_text`: deterministic template when no
client is configured; otherwise the provider call, with the fallback
chat call on TypeError, everything wrapped in an outer handler that
returns a safe template on any error — this function is total. -/
def generate_onboarding_plan_text (client : Option PlanLLM) (name role : String)
    (start_date : Option String) : String :=
  match client with
  | none =>
      let plan := planHeader name role ++ planTemplateLines
      if pyTruthy start_date then
        planHeader name role ++ "Start date (reported): " ++ start_date.getD "" ++ "\n\n" ++ plan
      else plan
  | some c =>
      match c.responses (planPrompt name role start_date) with
      | .ok s => pystrip s
      | .typeError =>
          match c.chat (planPrompt name role start_date) with
          | .ok s => pystrip s
          | .error e => planFallback e
      | .err e => planFallback e

structure SendResult where
  ok : Bool
  msg : String
  deriving DecidableEq

/-- Environment of `onboard_selected_candidates`: the module OpenAI
client and the SMTP transport behind `send_email_smtp` (that function
catches its own exceptions and returns a status record). -/
structure OnboardEnv where
  client : Option PlanLLM
  send_email_smtp : String → String → String → SendResult

/-- One screening-result dict as the onboarding agent reads it; absent
keys are `none`. -/
structure Candidate where
  filename : Option String
  name : Option String
  role : Option String
  applied_role : Option String
  email : Option String
  contact : Option String
  text : Option String
  verdict : Option String

/-- One entry of the returned `processed` list; the success entry fills
all fields but `error`, the error entry only `filename`, `status` and
`error`. -/
structure OnboardEntry where
  filename : String
  name : Option String
  email : Option String
  role : Option String
  plan : Option String
  email_status : Option SendResult
  status : String
  error : Option String

/-- The `except Exception` entry of the per-item loop. -/
def onboardErrorEntry (item : Candidate) (e : String) : OnboardEntry :=
  ⟨item.filename.getD "unknown", none, none, none, none, none, "error", some e⟩

/-- Body of the per-item `try` block after the PASS check: resolve
names, email and plan, build the email body (fallible when a body
template is formatted), optionally send, and build the status entry. -/
def processPassItem (env : OnboardEnv) (default_start_date : Option String)
    (send_email : Bool) (email_subject_template email_body_template : Option String)
    (item : Candidate) : Except String OnboardEntry :=
  let filename := item.filename.getD "unknown_file"
  let name_guess :=
    pyOrStr item.name (pyTitle (pyReplaceChar '_' ' ' ⟨takeUntilChar '.' filename.data⟩))
  let role := pyOrStr item.role (pyOrStr item.applied_role "the role")
  let ce0 := pyOrOpt item.email (pyOrOpt item.contact (extract_email_from_text (item.text.getD "")))
  let candidate_email :=
    match ce0 with
    | some s => if s == "" then guess_email_from_filename filename else s
    | none => guess_email_from_filename filename
  let plan_text := generate_onboarding_plan_text env.client name_guess role default_start_date
  let subject := pyOrStr email_subject_template ("Onboarding: Welcome to " ++ role ++ " at Company")
  let bodyResult :=
    if pyTruthy email_body_template then
      pyFormat (email_body_template.getD "")
        [("name", name_guess), ("role", role),
         ("start_date", pyOrStr default_start_date "TBD"), ("plan", plan_text)]
    else
      .ok ("Dear " ++ name_guess ++ ",\n\nCongratulations — you have been selected for " ++ role ++
        ".\n\nReporting date/time: " ++ pyOrStr default_start_date "Please confirm availability" ++
        "\n\n" ++ plan_text ++
        "\n\nPlease reply to confirm your availability and if you have any questions.\n\nBest,\nHR Team")
  match bodyResult with
  | .error e => .error e
  | .ok body =>
      if send_email then
        let sr := env.send_email_smtp candidate_email subject body
        .ok ⟨filename, some name_guess, some candidate_email, some role, some plan_text,
          some sr, if sr.ok then "email_sent" else "email_failed", none⟩
      else
        .ok ⟨filename, some name_guess, some candidate_email, some role, some plan_text,
          none, "plan_generated", none⟩

/-- The PASS filter `str(item.get("verdict", "")).upper() == "PASS"`. -/
def verdictIsPass (item : Candidate) : Bool :=
  pyUpper (item.verdict.getD "") == "PASS"

/-- Loop body of `onboard_selected_candidates`: skip non-PASS items,
convert a per-item exception into an error entry. -/
def onboardStep (env : OnboardEnv) (default_start_date : Option String) (send_email : Bool)
    (email_subject_template email_body_template : Option String)
    (processed : List OnboardEntry) (item : Candidate) : List OnboardEntry :=
  if pyUpper (item.verdict.getD "") != "PASS" then processed
  else
    match processPassItem env default_start_date send_email
        email_subject_template email_body_template item with
    | .ok entry => processed ++ [entry]
    | .error e => processed ++ [onboardErrorEntry item e]

def onboard_selected_candidates (env : OnboardEnv) (screening_results : List Candidate)
    (default_start_date : Option String) (send_email : Bool)
    (email_subject_template email_body_template : Option String) : List OnboardEntry :=
  screening_results.foldl
    (onboardStep env default_start_date send_email email_subject_template email_body_template) []

/-- Terminal entry of one PASS item: the success entry, or the error
entry when the item's processing raises. -/
def resolveCandidate (env : OnboardEnv) (default_start_date : Option String) (send_email : Bool)
    (email_subject_template email_body_template : Option String) (item : Candidate) :
    OnboardEntry :=
  match processPassItem env default_start_date send_email
      email_subject_template email_body_template item with
  | .ok entry => entry
  | .error e => onboardErrorEntry item e

theorem onboard_foldl_eq (env : OnboardEnv) (dsd : Option String) (send : Bool)
    (st bt : Option String) (items : List Candidate) (acc : List OnboardEntry) :
    items.foldl (onboardStep env dsd send st bt) acc =
      acc ++ (items.filter verdictIsPass).map (resolveCandidate env dsd send st bt) := by
  induction items generalizing acc with
  | nil => simp
  | cons it rest ih =>
    rw [List.foldl_cons, ih]
    rcases Decidable.em (verdictIsPass it = true) with h | h
    · have hne : (pyUpper (it.verdict.getD "") != "PASS") = false := by
        simpa [verdictIsPass] using h
      cases hp : processPassItem env dsd send st bt it <;>
        simp [onboardStep, resolveCandidate, hne, hp, h]
    · have hne : (pyUpper (it.verdict.getD "") != "PASS") = true := by
        simpa [verdictIsPass] using h
      simp [onboardStep, hne, List.filter_cons,
        show verdictIsPass it = false by simpa [verdictIsPass] using h]

/-- C10: `onboard_selected_candidates` is total (never raises) and
returns exactly one status entry per PASS item, in input order, skipping
all other items; a per-item exception becomes an entry with status
"error" instead of propagating. -/
theorem onboard_selected_candidates_spec (env : OnboardEnv) (results : List Candidate)
    (dsd : Option String) (send : Bool) (st bt : Option String) :
    onboard_selected_candidates env results dsd send st bt =
      (results.filter verdictIsPass).map (resolveCandidate env dsd send st bt) ∧
      (onboard_selected_candidates env results dsd send st bt).length =
        (results.filter verdictIsPass).length := by
  have h := onboard_foldl_eq env dsd send st bt results []
  rw [List.nil_append] at h
  exact ⟨h, by rw [onboard_selected_candidates, h]; simp⟩
